import Mathlib

/-!
Verification of the MyVue reactive runtime (src/src/MyVue.js; the file
src/unnamed/part_002 contains the same reactivity core at the same line
numbers). The JavaScript module is embedded shallowly: module-level mutable
state becomes an explicit state record `St`, Proxy handlers and the
scheduler become pure state-transforming functions, and JavaScript Sets and
Maps become association lists that preserve insertion order, which is the
iteration order of the originals. Effect bodies (the `fn` wrapped by
`ReactiveEffect`) are embedded as small command lists of tracked reads and
reactive writes, mirroring the bodies that appear in the repository
(render functions and watchers read observed keys and occasionally write
them). Recursion through the JavaScript event loop is made total with an
explicit fuel argument; every theorem below uses enough fuel that the fuel
branch is never the one taken.
-/

namespace MyVue

/-- Association-list lookup, mirroring `Map.get` / `WeakMap.get`. -/
def alookup {α β : Type} [DecidableEq α] (l : List (α × β)) (a : α) : Option β :=
  (l.find? (fun p => decide (p.1 = a))).map (fun p => p.2)

/-- Association-list update, mirroring `Map.set`: replace in place if the key
exists (preserving insertion order), otherwise append. -/
def aset {α β : Type} [DecidableEq α] (l : List (α × β)) (a : α) (b : β) :
    List (α × β) :=
  if (alookup l a).isSome then
    l.map (fun p => if p.1 = a then (a, b) else p)
  else
    l ++ [(a, b)]

/-- One step of an effect body (the function wrapped by `ReactiveEffect`).
`read t k` is a tracked property read through the `reactive` proxy
(MyVue.js line 36-39: `track(target, key)` then `Reflect.get`).
`write t k v` is a property write through the proxy
(lines 40-44: `Reflect.set` then `trigger(target, key)`).
`readC sel t1 k1 t2 k2` reads `(t1,k1)` when the plain (non-reactive)
module variable `sel` is nonzero and `(t2,k2)` otherwise: it models a body
such as `() => flag ? state.a : state.b` where `flag` is an ordinary,
untracked variable. -/
inductive Action where
  | read (t : Nat) (k : String)
  | write (t : Nat) (k : String) (v : Int)
  | readC (sel : String) (t1 : Nat) (k1 : String) (t2 : Nat) (k2 : String)
deriving DecidableEq, Repr

/-- Static data of one `ReactiveEffect` (MyVue.js lines 119-124): the wrapped
function `fn` as a command list, and the optional scheduler. The only
scheduler shape the module ever constructs is the computed-value scheduler
of lines 156-159, so `sched = some cid` names the computed value whose
dirty flag it flips; `none` is the default mode that is queued by
`trigger`. -/
structure EffData where
  body : List Action
  sched : Option Nat
deriving DecidableEq, Repr

/-- Per-computed-value state (closure variables of `computed`, MyVue.js
lines 151-172): the `dirty` flag, the cached value `cacheValue` (a run of
the derivation yields the list of values it read; see `execBody`), the id
of its backing `ReactiveEffect`, and the identity of the synthetic
`computedObj` container. -/
structure CompData where
  dirty : Bool
  cache : List Int
  effId : Nat
  ctarget : Nat
deriving DecidableEq, Repr

/-- The module-level mutable state of MyVue.js.
`store` holds the fields of the observed records (target identity × key →
value). `plain` holds ordinary non-reactive module variables. `registry`
is `targetMap`, flattened to buckets keyed by (target, key); each bucket
is the dep `Set`, as an insertion-ordered duplicate-free list. `effects`
is the table of constructed `ReactiveEffect`s. `deps` is each effect's
`this.deps` set of buckets, also insertion-ordered. `computeds` holds the
closure state of each `computed`. `effectStack` is `effectStack`, newest
first, so `activeEffect` is its head. `updateQueue`, `updatePendding` are
the render-batching state of lines 89-90; `pendingDrains` counts drain
closures sitting in the microtask queue (`queueMicrotask`, line 108).
`runLog` is instrumentation, not program state: it records, per completed
`run()`, the effect id and the values its tracked reads observed. -/
structure St where
  store : List ((Nat × String) × Int)
  plain : List (String × Int)
  registry : List ((Nat × String) × List Nat)
  effects : List (Nat × EffData)
  deps : List (Nat × List (Nat × String))
  computeds : List (Nat × CompData)
  effectStack : List Nat
  updateQueue : List Nat
  updatePendding : Bool
  pendingDrains : Nat
  runLog : List (Nat × List Int)
deriving DecidableEq, Repr

/-- Value of a store field; a missing field reads as 0 (standing for the
JavaScript `undefined` that a fresh record field would give — the claims
only ever read fields that were initialised). -/
def storeGet (st : St) (t : Nat) (k : String) : Int :=
  (alookup st.store (t, k)).getD 0

def storeSet (st : St) (t : Nat) (k : String) (v : Int) : St :=
  { st with store := aset st.store (t, k) v }

def plainGet (st : St) (sel : String) : Int :=
  (alookup st.plain sel).getD 0

/-- Assignment to an ordinary (untracked) module variable: no `trigger`. -/
def setPlain (st : St) (sel : String) (v : Int) : St :=
  { st with plain := aset st.plain sel v }

/-- The bucket set of an effect, `effect.deps`; absent means the empty set. -/
def depsOf (st : St) (e : Nat) : List (Nat × String) :=
  (alookup st.deps e).getD []

def effDataOf (st : St) (e : Nat) : Option EffData :=
  alookup st.effects e

def compOf (st : St) (cid : Nat) : Option CompData :=
  alookup st.computeds cid

/-- MyVue.js `track` (lines 72-86): a no-op when no effect is active;
otherwise create the (target, key) bucket if absent, add the active effect
to the bucket (`depSet.add`), and add the bucket to the effect's own set
(`activeEffect.deps.add`). `Set.add` of a present member leaves the set
unchanged, hence the membership guards. -/
def track (st : St) (t : Nat) (k : String) : St :=
  match st.effectStack.head? with
  | none => st
  | some a =>
    let reg :=
      match alookup st.registry (t, k) with
      | none => st.registry ++ [((t, k), [a])]
      | some ids => aset st.registry (t, k) (if a ∈ ids then ids else ids ++ [a])
    let dl :=
      match alookup st.deps a with
      | none => st.deps ++ [(a, [(t, k)])]
      | some l => aset st.deps a (if (t, k) ∈ l then l else l ++ [(t, k)])
    { st with registry := reg, deps := dl }

/-- Remove effect `e` from every bucket whose key lies in `D`
(`this.deps.forEach(dep => dep.delete(this))`). -/
def remFrom (D : List (Nat × String)) (e : Nat)
    (reg : List ((Nat × String) × List Nat)) : List ((Nat × String) × List Nat) :=
  reg.map (fun b => if b.1 ∈ D then (b.1, b.2.filter (fun x => x != e)) else b)

/-- MyVue.js `ReactiveEffect.cleanup` (lines 140-143):
`this.deps.forEach(dep => dep.delete(this)); this.deps.length = 0;`.
The first statement removes the effect from every bucket it holds. The
second does NOT clear `this.deps`: `deps` is a `Set` (line 122,
`this.deps = new Set()`), and assigning to `.length` on a Set merely
creates an inert own property — `Set.prototype.clear` is never called. So
the embedded `cleanup` leaves the `deps` field unchanged. -/
def cleanup (st : St) (e : Nat) : St :=
  { st with registry := remFrom (depsOf st e) e st.registry }

/-- `updateQueue.add(effect)` (line 102): a Set add, no duplicate entries. -/
def enqueueEff (st : St) (e : Nat) : St :=
  if e ∈ st.updateQueue then st else { st with updateQueue := st.updateQueue ++ [e] }

/-- Lines 106-115 of `trigger`: if not already pending, set the flag and
queue one drain closure on the microtask queue. -/
def markPending (st : St) : St :=
  if st.updatePendding then st
  else { st with updatePendding := true, pendingDrains := st.pendingDrains + 1 }

/-- Set the dirty flag of computed `cid` (line 157 of the computed
scheduler, `dirty = true`). -/
def setDirty (st : St) (cid : Nat) : St :=
  match compOf st cid with
  | none => st
  | some cd => { st with computeds := aset st.computeds cid { cd with dirty := true } }

/-- MyVue.js `trigger` (lines 91-116). Early return when the (target, key)
bucket does not exist. Otherwise iterate a snapshot of the bucket
(`new Set(depSet)`); a subscriber with a scheduler has it invoked
synchronously — the only scheduler in the module is the computed scheduler
(lines 156-159), which sets the dirty flag and triggers the synthetic
container's "value" key — and a default subscriber is added to
`updateQueue`. Afterwards, if no flush is pending, mark pending and queue
a drain microtask. The fuel bounds the recursion through nested scheduler
calls; all uses below stay far under it. -/
def trigger : Nat → St → Nat → String → St
  | 0, st, _, _ => st
  | Nat.succ fuel, st, t, k =>
    match alookup st.registry (t, k) with
    | none => st
    | some ids =>
      let st1 := ids.foldl
        (fun s e =>
          match effDataOf s e with
          | some ed =>
            match ed.sched with
            | some cid =>
              let s1 := setDirty s cid
              match compOf s1 cid with
              | some cd => trigger fuel s1 cd.ctarget "value"
              | none => s1
            | none => enqueueEff s e
          | none => enqueueEff s e)
        st
      markPending st1

/-- Execute an effect body (the wrapped `fn`), accumulating the values the
tracked reads observed. Reads go through the proxy `get` handler (track
first, then the lookup); writes go through the proxy `set` handler
(store the value, then `trigger`). -/
def execBody (fuel : Nat) : St → List Action → St × List Int
  | st, [] => (st, [])
  | st, Action.read t k :: rest =>
    let st1 := track st t k
    let v := storeGet st1 t k
    let (st2, vs) := execBody fuel st1 rest
    (st2, v :: vs)
  | st, Action.write t k v :: rest =>
    let st1 := trigger fuel (storeSet st t k v) t k
    execBody fuel st1 rest
  | st, Action.readC sel t1 k1 t2 k2 :: rest =>
    if plainGet st sel != 0 then
      let st1 := track st t1 k1
      let v := storeGet st1 t1 k1
      let (st2, vs) := execBody fuel st1 rest
      (st2, v :: vs)
    else
      let st1 := track st t2 k2
      let v := storeGet st1 t2 k2
      let (st2, vs) := execBody fuel st1 rest
      (st2, v :: vs)

/-- MyVue.js `ReactiveEffect.run` (lines 126-138): cleanup, push self on
`effectStack` (making self the active effect), execute the wrapped
function, then pop and restore the previous active effect. Returns the
function's result — here, the list of values its tracked reads observed.
The completed run is appended to the instrumentation log. -/
def runEffectR (fuel : Nat) (st : St) (e : Nat) : St × List Int :=
  let st1 := cleanup st e
  let st2 := { st1 with effectStack := e :: st1.effectStack }
  let body := ((effDataOf st2 e).map (fun d => d.body)).getD []
  let (st3, vs) := execBody fuel st2 body
  let st4 := { st3 with effectStack := st3.effectStack.tail }
  ({ st4 with runLog := st4.runLog ++ [(e, vs)] }, vs)

def runEffect (fuel : Nat) (st : St) (e : Nat) : St :=
  (runEffectR fuel st e).1

/-- The body of the drain closure's `updateQueue.forEach(effect =>
effect.run())` (lines 110-112). JavaScript `Set.forEach` visits members in
insertion order and also visits members appended during the iteration;
nothing is removed from the queue until the `clear()` after the loop, so
the iteration is exactly an index walk that re-checks the (possibly grown)
length each step. -/
def drainLoop : Nat → St → Nat → St
  | 0, st, _ => st
  | Nat.succ fuel, st, i =>
    if i < st.updateQueue.length then
      drainLoop fuel (runEffect fuel st (st.updateQueue.getD i 0)) (i + 1)
    else st

/-- The drain closure queued by `trigger` (lines 108-114): clear the
pending flag first, run every queued effect, then `updateQueue.clear()`. -/
def drain (fuel : Nat) (st : St) : St :=
  let st1 := { st with updatePendding := false }
  let st2 := drainLoop fuel st1 0
  { st2 with updateQueue := [] }

/-- Run the microtask queue to completion: pop and execute drain closures
until none remain. -/
def runMicrotasks : Nat → St → St
  | 0, st => st
  | Nat.succ fuel, st =>
    if st.pendingDrains = 0 then st
    else runMicrotasks fuel (drain fuel { st with pendingDrains := st.pendingDrains - 1 })

/-- A property write performed by user code through the `reactive` proxy
(lines 40-44): `Reflect.set` then `trigger`. -/
def reactiveSet (fuel : Nat) (st : St) (t : Nat) (k : String) (v : Int) : St :=
  trigger fuel (storeSet st t k v) t k

/-- Reading `.value` of computed `cid` (MyVue.js lines 163-170): always
`track(computedObj, 'value')`; if dirty, rerun the backing effect, cache
its result and clear the flag; return the cache. -/
def readComputed (fuel : Nat) (st : St) (cid : Nat) : St × List Int :=
  match compOf st cid with
  | none => (st, [])
  | some cd =>
    let st1 := track st cd.ctarget "value"
    if cd.dirty then
      let (st2, res) := runEffectR fuel st1 cd.effId
      match compOf st2 cid with
      | some cd2 =>
        ({ st2 with computeds := aset st2.computeds cid { cd2 with dirty := false, cache := res } }, res)
      | none => (st2, res)
    else (st1, cd.cache)

/-- Scenario for the render-batching claims: one observed record (target 0)
with a field "count", and one default-mode effect (id 0, no scheduler)
whose body reads that field — the shape `watchEffect`/render effects have.
The state is the one reached after the effect's initial `run()`. -/
def baseC5 : St :=
  { store := [((0, "count"), 0)], plain := [], registry := [],
    effects := [(0, { body := [Action.read 0 "count"], sched := none })],
    deps := [], computeds := [], effectStack := [], updateQueue := [],
    updatePendding := false, pendingDrains := 0, runLog := [] }

def st0 : St := runEffect 20 baseC5 0

/-- One user-code write of `v` to the observed "count" field from `st0`. -/
def w1 (v : Int) : St := reactiveSet 20 st0 0 "count" v

/-- A synchronous burst of writes to "count" within one tick. -/
def applyWrites (vs : List Int) (st : St) : St :=
  vs.foldl (fun s v => reactiveSet 20 s 0 "count" v) st

/-- Last element of a list, with a default — used to state which write wins. -/
def lastD : List Int → Int → Int
  | [], d => d
  | a :: l, _ => lastD l a

/-- Scenario for the re-entrant-trigger claim: a record (target 0) with
fields "x" and "y"; effect 0 reads "x"; effect 1 reads "y" and then writes
"x" (the shape of a watcher that updates another observed field, as the
repository's App.vue watch callback does). Both are default-mode. -/
def baseC1 : St :=
  { store := [((0, "x"), 0), ((0, "y"), 0)], plain := [], registry := [],
    effects := [(0, { body := [Action.read 0 "x"], sched := none }),
                (1, { body := [Action.read 0 "y", Action.write 0 "x" 10], sched := none })],
    deps := [], computeds := [], effectStack := [], updateQueue := [],
    updatePendding := false, pendingDrains := 0, runLog := [] }

/-- Both effects run once initially, then the microtask queue is drained to
quiescence (effect 1's initial run writes "x" and so schedules a flush). -/
def c1Setup : St := runMicrotasks 20 (runEffect 20 (runEffect 20 baseC1 0) 1)

/-- Two synchronous user writes in one tick: "x" := 1 queues effect 0,
"y" := 7 queues effect 1. -/
def c1AfterWrites : St := reactiveSet 20 (reactiveSet 20 c1Setup 0 "x" 1) 0 "y" 7

/-- The state after the first scheduled drain only (the microtask queued by
the writes): during this drain effect 1 writes "x", re-triggering
effect 0. -/
def c1MidDrain : St := drain 20 { c1AfterWrites with pendingDrains := c1AfterWrites.pendingDrains - 1 }

/-- The state after the whole microtask queue has run to completion. -/
def c1Final : St := runMicrotasks 20 c1AfterWrites

/-- Scenario for the cleanup claim: an effect whose body is
`flag ? state.a : state.b` with `flag` an ordinary module variable, run
once with the flag set, then rerun directly (as `watch`'s scheduler and
`instance.update` do) after the flag is flipped. -/
def baseC4 : St :=
  { store := [((0, "a"), 3), ((0, "b"), 4)], plain := [("useA", 1)], registry := [],
    effects := [(0, { body := [Action.readC "useA" 0 "a" 0 "b"], sched := none })],
    deps := [], computeds := [], effectStack := [], updateQueue := [],
    updatePendding := false, pendingDrains := 0, runLog := [] }

def c4AfterFirstRun : St := runEffect 20 baseC4 0

def c4AfterSecondRun : St := runEffect 20 (setPlain c4AfterFirstRun "useA" 0) 0

/-- Scenario for the computed-value claim: a record (target 0) with field
"count" initially 2, and one computed value (cid 0) whose derivation reads
that field. `baseC6` is the state just after `computed(gatter)` returns:
the backing effect exists with the computed scheduler attached, the dirty
flag is true, and nothing has run. The synthetic `computedObj` container
has identity 100. -/
def baseC6 : St :=
  { store := [((0, "count"), 2)], plain := [], registry := [],
    effects := [(0, { body := [Action.read 0 "count"], sched := some 0 })],
    deps := [], computeds := [(0, { dirty := true, cache := [], effId := 0, ctarget := 100 })],
    effectStack := [], updateQueue := [], updatePendding := false,
    pendingDrains := 0, runLog := [] }

/-- One read of the computed `.value` (result discarded). -/
def readC6 (st : St) : St := (readComputed 20 st 0).1

/-- `n` consecutive reads of the computed `.value`. -/
def readN : Nat → St → St
  | 0, st => st
  | Nat.succ n, st => readN n (readC6 st)

/-- Number of completed runs of effect `e` recorded in the log. -/
def runsOf (e : Nat) (st : St) : Nat :=
  (st.runLog.filter (fun p => decide (p.1 = e))).length

/-- The values observed by the tracked reads of the most recent completed
run of effect `e`, if any. -/
def lastRunVals (e : Nat) (st : St) : Option (List Int) :=
  ((st.runLog.filter (fun p => decide (p.1 = e))).getLast?).map (fun p => p.2)

/-- Consume one scheduled flush from the microtask queue and run it. -/
def flush1 (st : St) : St :=
  drain 20 { st with pendingDrains := st.pendingDrains - 1 }

/-- The settlement status of a Promise returned by `nextTick`. -/
inductive PState where
  | unsettled
  | resolvedP
  | rejectedP
deriving DecidableEq, Repr

/-- The module-level state of the `nextTick` mechanism (MyVue.js lines
196-227): the `nextTickPending` flag, the `nextTickCallbacks` array (each
callback abstracted to an id and whether invoking it throws), the Promises
handed out so far (index = creation order), and — when a flush microtask
is sitting in the queue — the id of the Promise whose `resolve`/`reject`
that closure captured (only the call that schedules the flush passes its
executor the `Promise.resolve().then` branch, lines 206-216). -/
structure NT where
  pending : Bool
  callbacks : List (Nat × Bool)
  promises : List PState
  flushWired : Option Nat
deriving DecidableEq, Repr

def nt0 : NT := { pending := false, callbacks := [], promises := [], flushWired := none }

/-- MyVue.js `nextTick` (lines 200-219): always push a wrapper callback;
create a Promise; inside its executor, only when `nextTickPending` is
false, set the flag and schedule a microtask that will run
`flushCallbacks` and then settle THIS call's Promise. When the flag is
already set the executor does nothing, so the returned Promise has no
resolver wired to it. Returns the new Promise's id. -/
def nextTick (nt : NT) (cb : Nat × Bool) : NT × Nat :=
  let nt1 := { nt with callbacks := nt.callbacks ++ [cb] }
  let pid := nt1.promises.length
  let nt2 := { nt1 with promises := nt1.promises ++ [PState.unsettled] }
  if nt2.pending then (nt2, pid)
  else ({ nt2 with pending := true, flushWired := some pid }, pid)

/-- Invoke a snapshot of callbacks in order, JavaScript `forEach`
semantics: a callback that throws aborts the iteration and the exception
propagates. Returns the ids actually invoked (the thrower included) and
whether a throw escaped. -/
def runCbs : List (Nat × Bool) → List Nat × Bool
  | [] => ([], false)
  | (i, th) :: rest =>
    if th then ([i], true)
    else
      let r := runCbs rest
      (i :: r.1, r.2)

/-- MyVue.js `flushCallbacks` (lines 222-227): clear the pending flag,
snapshot the callback list (`slice(0)`), clear it (`length = 0` — this one
IS an array, so it really clears), then invoke the snapshot in order.
Returns the updated state together with the invoked ids and the
throw flag. -/
def flushCallbacks (nt : NT) : NT × (List Nat × Bool) :=
  ({ nt with pending := false, callbacks := [] }, runCbs nt.callbacks)

/-- The microtask scheduled on line 209: run `flushCallbacks` inside
try/catch and settle the captured Promise — resolve on normal completion,
reject when a callback threw. Returns the ids of the callbacks that were
invoked. -/
def runFlushTask (nt : NT) : NT × List Nat :=
  match nt.flushWired with
  | none => (nt, [])
  | some pid =>
    let fr := flushCallbacks { nt with flushWired := none }
    ({ fr.1 with
        promises := fr.1.promises.set pid
          (if fr.2.2 then PState.rejectedP else PState.resolvedP) },
      fr.2.1)

/-- Which callbacks a flush invokes: everything before the first thrower,
then the thrower itself; nothing after it. -/
def invokedOf (cbs : List (Nat × Bool)) : List Nat :=
  (cbs.takeWhile (fun c => !c.2)).map (fun c => c.1) ++
    (((cbs.dropWhile (fun c => !c.2)).head?).map (fun c => c.1)).toList

/-- Whether some callback of the round throws. -/
def throwsAny (cbs : List (Nat × Bool)) : Bool := cbs.any (fun c => c.2)

/-- A virtual node as `patch` inspects it (MyVue.js lines 390-400): its
`children` field matters only through reference identity (`!==`), so it is
embedded as an identity token; `el` is the host node the node produced
when it was last rendered, if any. -/
structure VNode where
  children : Nat
  el : Option Nat
deriving DecidableEq, Repr

/-- The container's child list of host nodes, each a host-node identity. -/
def HostTree := List Nat

/-- The mounting step of MyVue.js `renderVNode` (lines 229-264), at the
granularity `patch` depends on: building the node tree for `vnode` yields
a fresh host node (`fresh` — `document.createElement`/`createTextNode`
always allocate a new node), and line 262 mounts it:
`oldDom ? parent.replaceChild(el, oldDom) : parent.appendChild(el)`.
Returns the updated container children and the produced host node. -/
def renderVNode (c : List Nat) (oldDom : Option Nat) (fresh : Nat) :
    List Nat × Nat :=
  match oldDom with
  | some old => (c.map (fun x => if x = old then fresh else x), fresh)
  | none => (c ++ [fresh], fresh)

/-- MyVue.js `patch` (lines 390-400): with no previous tree, render the new
tree unconditionally and record its host node. With a previous tree,
re-render — passing the previous host node so the new one replaces it in
place — only when the new children reference differs from the old one;
when the references are identical nothing at all happens (the new tree's
`el` is not even assigned). -/
def patch (n1 : Option VNode) (n2 : VNode) (c : List Nat) (fresh : Nat) :
    VNode × List Nat :=
  match n1 with
  | none =>
    let r := renderVNode c none fresh
    ({ n2 with el := some r.2 }, r.1)
  | some o =>
    if n2.children = o.children then (n2, c)
    else
      let r := renderVNode c o.el fresh
      ({ n2 with el := some r.2 }, r.1)

/-- A JavaScript value as `isRef` discriminates it: `null`, `undefined`, or
an object that either lacks the tag field or carries it with some
truthiness. -/
inductive JsVal where
  | vnull
  | vundefined
  | obj (hasRefTag : Bool) (tagTruthy : Bool)
deriving DecidableEq, Repr

/-- MyVue.js `isRef` (lines 67-69): `!!obj?.__v_isRef`. Optional chaining
makes `null`/`undefined` yield `undefined`, hence `false`; an object
without the field also yields `undefined`; otherwise the double negation
takes the field's truthiness. Total — it raises on no input. -/
def isRef : JsVal → Bool
  | JsVal.obj true b => b
  | JsVal.obj false _ => false
  | JsVal.vnull => false
  | JsVal.vundefined => false

/-- The handle `ref(value)` returns (MyVue.js lines 49-64): an object
carrying the literal field `__v_isRef: true` (line 55), whatever the
wrapped value is. -/
def refHandle (_value : Int) : JsVal := JsVal.obj true true

/-- The handle `computed(gatter)` returns (MyVue.js lines 161-171): also an
object carrying the literal field `__v_isRef: true` (line 162). -/
def computedHandle : JsVal := JsVal.obj true true

/-- The two hook lists of a component instance (`createHookQueue`,
MyVue.js lines 291-296); hooks are identified by id. -/
structure HookQueue where
  mounted : List Nat
  updated : List Nat
deriving DecidableEq, Repr

/-- MyVue.js `onMounted` (lines 320-324): when `currentInstance` is set,
push onto its mounted list; otherwise the guarded body is skipped and the
call returns `undefined` — it never throws. The `Except` codomain records
whether an error is raised: the source has no throw path, so every branch
is `Except.ok`. -/
def onMounted (currentInstance : Option HookQueue) (fn : Nat) :
    Except String (Option HookQueue) :=
  match currentInstance with
  | some inst => Except.ok (some { inst with mounted := inst.mounted ++ [fn] })
  | none => Except.ok none

/-- MyVue.js `onUpdated` (lines 326-330): same shape as `onMounted`, on the
updated list. -/
def onUpdated (currentInstance : Option HookQueue) (fn : Nat) :
    Except String (Option HookQueue) :=
  match currentInstance with
  | some inst => Except.ok (some { inst with updated := inst.updated ++ [fn] })
  | none => Except.ok none

/-- The disposer returned by `watch` and by `watchEffect` (MyVue.js lines
183-185 and 191-193): `() => watchEffect.cleanup()`. -/
def watchDispose (st : St) (e : Nat) : St := cleanup st e

/-- A generic mid-round state of the `nextTick` machinery: a flush is
pending, `cbs` are the registered callbacks of the round, and the one
Promise handed out so far (the scheduling call's, id 0) is the one the
flush closure will settle. -/
def mkRound (cbs : List (Nat × Bool)) : NT :=
  { pending := true, callbacks := cbs, promises := [PState.unsettled],
    flushWired := some 0 }

/-- Two `nextTick` calls in one round, both with well-behaved callbacks:
the first schedules the flush, the second arrives while the flush is
already pending. -/
def c3Call1 : NT × Nat := nextTick nt0 (0, false)

def c3Call2 : NT × Nat := nextTick c3Call1.1 (1, false)

/-- The scheduled flush microtask then runs. -/
def c3Flushed : NT × List Nat := runFlushTask c3Call2.1

/-- Two `nextTick` calls in one round where the FIRST callback throws. -/
def c7Call1 : NT × Nat := nextTick nt0 (0, true)

def c7Call2 : NT × Nat := nextTick c7Call1.1 (1, false)

def c7Flushed : NT × List Nat := runFlushTask c7Call2.1

end MyVue

namespace MyVue

/-- Claim C1: the claim asserts that an effect triggered while the drain is
running is never lost. The code violates this: in the embedded failing run,
effect 0 (subscribed to field "x") and effect 1 (which writes "x") are
both queued; the drain runs effect 0 first, then effect 1, whose write
re-triggers effect 0 — but `updateQueue.add` is a no-op on the already
present member and the `updateQueue.clear()` after the loop discards it,
so although the fresh flush is scheduled (the mid-drain state holds one
pending drain with an empty queue), effect 0 is never rerun: it ends with
3 completed runs, the last observing x = 1, while the store holds x = 10
and no work remains scheduled. -/
theorem c1_reentrant_rerun_lost :
    runsOf 0 c1Final = 3 ∧
    lastRunVals 0 c1Final = some [1] ∧
    storeGet c1Final 0 "x" = 10 ∧
    alookup c1Final.registry (0, "x") = some [0] ∧
    c1MidDrain.pendingDrains = 1 ∧
    c1MidDrain.updateQueue = [] ∧
    c1Final.updateQueue = [] ∧
    c1Final.pendingDrains = 0 ∧
    c1Final.updatePendding = false := by decide

/-- Claim C2 counterexample: the claim asserts that calling `onMounted` or
`onUpdated` with no active component instance raises a usage error. It
does not: both calls return normally. -/
theorem c2_counterexample :
    onMounted none 0 = Except.ok none ∧ onUpdated none 0 = Except.ok none :=
  ⟨rfl, rfl⟩

/-- Claim C2 (amended): calling `onMounted(fn)` or `onUpdated(fn)` with no
active component instance is silently ignored — the call returns normally,
registers nothing, and raises no error; with an active instance, `fn` is
appended to the corresponding hook list. -/
theorem c2_hooks_silently_ignored (fn : Nat) (q : HookQueue) :
    onMounted none fn = Except.ok none ∧
    onUpdated none fn = Except.ok none ∧
    onMounted (some q) fn = Except.ok (some { q with mounted := q.mounted ++ [fn] }) ∧
    onUpdated (some q) fn = Except.ok (some { q with updated := q.updated ++ [fn] }) :=
  ⟨rfl, rfl, rfl, rfl⟩

/-- Claim C3: the claim asserts every `nextTick` call returns an awaitable
that eventually settles. The code violates this for every call that finds
a flush already pending: at the embedded failing input — two calls in one
round — the first Promise resolves when the flush runs and both queued
callbacks are invoked, but the second Promise is still unsettled after the
flush with no flush microtask remaining and no callback left, so nothing
can ever settle it. -/
theorem c3_second_awaitable_never_settles :
    c3Call1.2 = 0 ∧ c3Call2.2 = 1 ∧
    c3Flushed.2 = [0, 1] ∧
    c3Flushed.1.promises = [PState.resolvedP, PState.unsettled] ∧
    c3Flushed.1.pending = false ∧
    c3Flushed.1.flushWired = none ∧
    c3Flushed.1.callbacks = [] := by decide

/-- Claim C4: the claim asserts that after any sequence of runs the
dependency set of an effect holds exactly the buckets touched by the most
recent run. The code violates this: `this.deps.length = 0` does not clear
a Set, so in the embedded failing run — a body reading field "a" under a
plain flag and field "b" after the flag flips — the second run touches
only bucket "b" (the bucket memberships themselves are correct: the effect
was removed from "a" and added to "b"), yet the deps set still holds both
buckets. -/
theorem c4_stale_deps_accumulate :
    alookup c4AfterFirstRun.deps 0 = some [(0, "a")] ∧
    lastRunVals 0 c4AfterSecondRun = some [4] ∧
    alookup c4AfterSecondRun.registry (0, "a") = some [] ∧
    alookup c4AfterSecondRun.registry (0, "b") = some [0] ∧
    alookup c4AfterSecondRun.deps 0 = some [(0, "a"), (0, "b")] := by decide

/-- Claim C7 counterexample: the claim asserts that a throwing callback
does not prevent the remaining snapshotted callbacks from being invoked.
It does: with the snapshot [(0, throws), (1, ok)], only callback 0 is
invoked — callback 1, although in the snapshot, is skipped, because
`copies.forEach(cb => cb())` aborts when a callback throws. -/
theorem c7_counterexample :
    c7Call2.1.callbacks = [(0, true), (1, false)] ∧
    c7Flushed.2 = [0] ∧
    c7Flushed.1.promises = [PState.rejectedP, PState.unsettled] ∧
    c7Flushed.1.pending = false ∧
    c7Flushed.1.callbacks = [] := by decide

/-- Claim C9: both the `ref` handle and the `computed` handle carry the
tag field `__v_isRef` with value `true` — the tag is byte-identical for
the two kinds of handle, so `isRef` answers `true` for computed handles
exactly as for writable cells — and `isRef` of `null` or `undefined` is
`false` (and `isRef` is total: the optional chain never raises). -/
theorem c9_isref_tags (v : Int) :
    isRef (refHandle v) = true ∧
    isRef computedHandle = true ∧
    refHandle v = computedHandle ∧
    isRef JsVal.vnull = false ∧
    isRef JsVal.vundefined = false :=
  ⟨rfl, rfl, rfl, rfl, rfl⟩

/-- A later write to the same observed field from the just-written state
reaches the same state the write alone reaches: the effect is already in
the queue and the flush is already pending, so only the stored value
moves. -/
theorem w1_stable (u v : Int) : reactiveSet 20 (w1 u) 0 "count" v = w1 v := rfl

/-- A burst of writes from the once-written state collapses to the single
write of the last value. -/
theorem applyWrites_w1 :
    ∀ (vs : List Int) (v : Int), applyWrites vs (w1 v) = w1 (lastD vs v)
  | [], _ => rfl
  | u :: vs, v => by
    show applyWrites vs (reactiveSet 20 (w1 v) 0 "count" u) = w1 (lastD vs u)
    rw [w1_stable v u]
    exact applyWrites_w1 vs u

/-- Claim C5: from the quiescent subscribed state, any nonempty burst of
synchronous writes to the observed "count" field leaves exactly one flush
scheduled with the effect queued once; running that flush reruns the
effect exactly once, and that single rerun observes the value of the last
write; afterwards the queue is empty, no flush is scheduled, and running
one more (empty) flush adds no further rerun. -/
theorem c5_writes_coalesce_to_one_rerun (vs : List Int) (h : vs ≠ []) :
    (applyWrites vs st0).pendingDrains = 1 ∧
    (applyWrites vs st0).updateQueue = [0] ∧
    runsOf 0 (flush1 (applyWrites vs st0)) = runsOf 0 st0 + 1 ∧
    lastRunVals 0 (flush1 (applyWrites vs st0)) = some [lastD vs 0] ∧
    (flush1 (applyWrites vs st0)).updateQueue = [] ∧
    (flush1 (applyWrites vs st0)).pendingDrains = 0 ∧
    runsOf 0 (flush1 (flush1 (applyWrites vs st0))) = runsOf 0 st0 + 1 := by
  match vs, h with
  | v :: vs', _ =>
    have e1 : applyWrites (v :: vs') st0 = w1 (lastD vs' v) := by
      show applyWrites vs' (w1 v) = w1 (lastD vs' v)
      exact applyWrites_w1 vs' v
    rw [e1]
    exact ⟨rfl, rfl, rfl, rfl, rfl, rfl, rfl⟩

/-- Claim C5 witness: the spec scenario — three synchronous writes of 1. -/
theorem c5_witness :
    (applyWrites [1, 1, 1] st0).pendingDrains = 1 ∧
    (applyWrites [1, 1, 1] st0).updateQueue = [0] ∧
    runsOf 0 (flush1 (applyWrites [1, 1, 1] st0)) = runsOf 0 st0 + 1 ∧
    lastRunVals 0 (flush1 (applyWrites [1, 1, 1] st0)) = some [lastD [1, 1, 1] 0] ∧
    (flush1 (applyWrites [1, 1, 1] st0)).updateQueue = [] ∧
    (flush1 (applyWrites [1, 1, 1] st0)).pendingDrains = 0 ∧
    runsOf 0 (flush1 (flush1 (applyWrites [1, 1, 1] st0))) = runsOf 0 st0 + 1 :=
  c5_writes_coalesce_to_one_rerun [1, 1, 1] (by decide)

/-- A read of the computed value in the already-clean state changes
nothing. -/
theorem readC6_fix : readC6 (readC6 baseC6) = readC6 baseC6 := by decide

/-- Any number of further reads after the first still changes nothing. -/
theorem readN_fix : ∀ n : Nat, readN n (readC6 baseC6) = readC6 baseC6
  | 0 => rfl
  | Nat.succ n => by
    show readN n (readC6 (readC6 baseC6)) = readC6 baseC6
    rw [readC6_fix]
    exact readN_fix n

/-- Claim C6: the derivation of a computed value never runs at creation
time; N consecutive reads (N at least 1) with no intervening mutation run
it exactly once, every one of those reads (and one more) returning the
cached result of that single run; the mutation of a tracked dependency
alone still runs nothing; and one mutation followed by a read runs the
derivation exactly once more, the read returning the fresh value. -/
theorem c6_lazy_and_memoized (N : Nat) (hN : 1 ≤ N) (v : Int) :
    runsOf 0 baseC6 = 0 ∧
    runsOf 0 (readN N baseC6) = 1 ∧
    (readComputed 20 (readN N baseC6) 0).2 = [2] ∧
    runsOf 0 (readComputed 20 (readN N baseC6) 0).1 = 1 ∧
    runsOf 0 (reactiveSet 20 (readN N baseC6) 0 "count" v) = 1 ∧
    runsOf 0 (readC6 (reactiveSet 20 (readN N baseC6) 0 "count" v)) = 2 ∧
    (readComputed 20 (reactiveSet 20 (readN N baseC6) 0 "count" v) 0).2 = [v] := by
  match N, hN with
  | Nat.succ n, _ =>
    have e1 : readN (Nat.succ n) baseC6 = readC6 baseC6 := by
      show readN n (readC6 baseC6) = readC6 baseC6
      exact readN_fix n
    rw [e1]
    exact ⟨rfl, rfl, rfl, rfl, rfl, rfl, rfl⟩

/-- Claim C6 witness: three consecutive reads, then a write of 7 and a
fourth read. -/
theorem c6_witness :
    runsOf 0 baseC6 = 0 ∧
    runsOf 0 (readN 3 baseC6) = 1 ∧
    (readComputed 20 (readN 3 baseC6) 0).2 = [2] ∧
    runsOf 0 (readComputed 20 (readN 3 baseC6) 0).1 = 1 ∧
    runsOf 0 (reactiveSet 20 (readN 3 baseC6) 0 "count" 7) = 1 ∧
    runsOf 0 (readC6 (reactiveSet 20 (readN 3 baseC6) 0 "count" 7)) = 2 ∧
    (readComputed 20 (reactiveSet 20 (readN 3 baseC6) 0 "count" 7) 0).2 = [7] :=
  c6_lazy_and_memoized 3 (by decide) 7

/-- What one pass of the forEach loop does, characterised against the
snapshot: it invokes exactly the prefix through the first thrower and
reports whether a throw escaped. -/
theorem runCbs_spec : ∀ cbs : List (Nat × Bool), runCbs cbs = (invokedOf cbs, throwsAny cbs)
  | [] => rfl
  | (i, true) :: rest => by
    simp [runCbs, invokedOf, throwsAny, List.takeWhile_cons, List.dropWhile_cons]
  | (i, false) :: rest => by
    simp [runCbs, invokedOf, throwsAny, List.takeWhile_cons, List.dropWhile_cons,
      runCbs_spec rest]

/-- Claim C7 (amended): when the scheduled flush runs over any callback
snapshot, the pending flag is cleared and the callback list snapshotted
and emptied before any callback is invoked — so the final state has the
flag down and the list empty whatever the callbacks do, and the next
scheduling round is not corrupted; the round's wired awaitable is rejected
exactly when some callback throws, resolved otherwise; and the callbacks
invoked are exactly those before the first thrower plus the thrower
itself — the remaining snapshotted callbacks are NOT invoked. -/
theorem c7_flush_clears_flag_and_stops_at_thrower (cbs : List (Nat × Bool)) :
    (runFlushTask (mkRound cbs)).1 =
      { pending := false, callbacks := [],
        promises := [if throwsAny cbs then PState.rejectedP else PState.resolvedP],
        flushWired := none } ∧
    (runFlushTask (mkRound cbs)).2 = invokedOf cbs := by
  refine ⟨?_, ?_⟩
  · show ({ pending := false, callbacks := [],
            promises := [if (runCbs cbs).2 then PState.rejectedP else PState.resolvedP],
            flushWired := none } : NT) = _
    rw [runCbs_spec]
  · show (runCbs cbs).1 = invokedOf cbs
    rw [runCbs_spec]

/-- Mapping an idempotent function twice is mapping it once. -/
theorem map_idem {α : Type} (f : α → α) (hf : ∀ a, f (f a) = f a) :
    ∀ l : List α, (l.map f).map f = l.map f
  | [] => rfl
  | a :: l => by simp [List.map_cons, hf a, map_idem f hf l]

/-- Filtering twice with the same predicate is filtering once. -/
theorem filter_self_twice {α : Type} (p : α → Bool) :
    ∀ l : List α, (l.filter p).filter p = l.filter p
  | [] => rfl
  | a :: l => by
    cases h : p a
    · simp [List.filter_cons, h, filter_self_twice p l]
    · simp [List.filter_cons, h, filter_self_twice p l]

/-- Removing an effect from the buckets it holds is idempotent on the
registry. -/
theorem remFrom_idem (D : List (Nat × String)) (e : Nat)
    (reg : List ((Nat × String) × List Nat)) :
    remFrom D e (remFrom D e reg) = remFrom D e reg := by
  show (reg.map _).map _ = reg.map _
  refine map_idem _ ?_ reg
  intro b
  by_cases h : b.1 ∈ D
  · simp [h, filter_self_twice]
  · simp [h]

/-- Claim C10: the disposer returned by `watch` and by `watchEffect` —
which calls the effect cleanup — is idempotent: from any state, calling it
twice in succession with no run in between leaves the whole state,
dependency registry included, exactly as one call leaves it; the second
call changes no bucket. -/
theorem c10_disposer_idempotent (st : St) (e : Nat) :
    watchDispose (watchDispose st e) e = watchDispose st e := by
  show { st with registry := remFrom (depsOf st e) e (remFrom (depsOf st e) e st.registry) }
      = { st with registry := remFrom (depsOf st e) e st.registry }
  rw [remFrom_idem]

/-- Claim C8: when a previous tree exists, `patch` with an identical
children reference is a no-op — the container and the new tree are
returned untouched, so the previously produced host node stays in place —
and `patch` with a differing children reference re-renders: the freshly
produced host node is recorded on the new tree and replaces the old host
node in place in the container (the new node is present, the old one is
gone, and the number of children is unchanged — wholesale in-place
replacement). -/
theorem c8_patch_children_gate (o n2 : VNode) (c : List Nat) (f : Nat) :
    (o.children = n2.children → patch (some o) n2 c f = (n2, c)) ∧
    (o.children ≠ n2.children → ∀ e, o.el = some e → e ∈ c → f ∉ c →
      f ∈ (patch (some o) n2 c f).2 ∧
      e ∉ (patch (some o) n2 c f).2 ∧
      ((patch (some o) n2 c f).2).length = c.length ∧
      (patch (some o) n2 c f).1 = { n2 with el := some f }) := by
  constructor
  · intro h
    simp [patch, h]
  · intro hne e he hec hfc
    have hcond : ¬ n2.children = o.children := fun hh => hne hh.symm
    have hef : e ≠ f := fun hh => hfc (hh ▸ hec)
    have hp : patch (some o) n2 c f
        = ({ n2 with el := some f }, c.map (fun x => if x = e then f else x)) := by
      simp [patch, renderVNode, hcond, he]
    rw [hp]
    refine ⟨?_, ?_, ?_, rfl⟩
    · exact List.mem_map.2 ⟨e, hec, by simp⟩
    · intro hmem
      obtain ⟨a, _, hga⟩ := List.mem_map.1 hmem
      by_cases hae : a = e
      · rw [hae, if_pos rfl] at hga
        exact hef hga.symm
      · rw [if_neg hae] at hga
        exact hae hga
    · exact List.length_map c _

/-- Claim C8 witness: identical children references (token 5) short-circuit
to a no-op; differing references (5 versus 6) replace host node 9 by the
fresh node 7 in place. -/
theorem c8_witness :
    patch (some ⟨5, some 9⟩) ⟨5, none⟩ [9] 7 = (⟨5, none⟩, [9]) ∧
    (7 ∈ (patch (some ⟨5, some 9⟩) ⟨6, none⟩ [9] 7).2 ∧
     9 ∉ (patch (some ⟨5, some 9⟩) ⟨6, none⟩ [9] 7).2 ∧
     ((patch (some ⟨5, some 9⟩) ⟨6, none⟩ [9] 7).2).length = [9].length ∧
     (patch (some ⟨5, some 9⟩) ⟨6, none⟩ [9] 7).1 = ⟨6, some 7⟩) :=
  ⟨(c8_patch_children_gate ⟨5, some 9⟩ ⟨5, none⟩ [9] 7).1 rfl,
   (c8_patch_children_gate ⟨5, some 9⟩ ⟨6, none⟩ [9] 7).2 (by decide) 9 rfl
     (by decide) (by decide)⟩

end MyVue
